import Mathlib

/-!
Verification development for the ipu_ray_lib ray/path tracer.

The definitions below are a shallow embedding of the relevant parts of
src/codelets/TraceCodelets.cpp, src/include/embree_utils/geometry.hpp and
src/include/Scene.hpp.  Machine floats are modelled by exact rationals; the
special float values NaN and the two infinities are modelled explicitly
where the code relies on them (NaN as the missing value of an option type
for accumulated colours, the infinities as extra elements of the FVal type
used for ray-interval and bounding-box components).  External routines that
the codelets call but whose bodies live outside the embedded files
(bvh.intersect, offsetRay, updateHit, sampleDiffuse, reflect, dielectric,
evaluateRoulette and the hardware RNG) are kept abstract as fields of a
TraceEnv record, so every theorem about the bounce loop is quantified over
all possible behaviours of those routines.
-/

/-- A float value that may be NaN: Option.none models NaN, Option.some q a finite value. -/
abbrev QN := Option ℚ

/-- IEEE-style addition on possibly-NaN values: NaN propagates. -/
def qnAdd : QN → QN → QN
  | Option.some a, Option.some b => Option.some (a + b)
  | _, _ => Option.none

/-- IEEE-style multiplication on possibly-NaN values: NaN propagates
(in IEEE-754, x * NaN = NaN for every x, including 0). -/
def qnMul : QN → QN → QN
  | Option.some a, Option.some b => Option.some (a * b)
  | _, _ => Option.none

/-- Vec3fa from embree_utils/geometry.hpp with finite (rational) components. -/
structure Vec3 where
  x : ℚ
  y : ℚ
  z : ℚ
deriving DecidableEq

/-- Componentwise sum (Vec3fa::operator+). -/
def Vec3.add (a b : Vec3) : Vec3 := ⟨a.x + b.x, a.y + b.y, a.z + b.z⟩

/-- Componentwise product (Vec3fa::operator* for vectors). -/
def Vec3.mul (a b : Vec3) : Vec3 := ⟨a.x * b.x, a.y * b.y, a.z * b.z⟩

/-- Vec3fa::squaredNorm. -/
def Vec3.squaredNorm (v : Vec3) : ℚ := v.x * v.x + v.y * v.y + v.z * v.z

/-- Component access, Vec3fa::operator[] on the union member c[3]. -/
def Vec3.comp (v : Vec3) : ℕ → ℚ
  | 0 => v.x
  | 1 => v.y
  | _ => v.z

/-- Vec3fa::maxi from geometry.hpp lines 115-121, translated verbatim:
if (x < y) return x < z ? 0 : 2; return y < z ? 1 : 2. -/
def Vec3.maxi (v : Vec3) : ℕ :=
  if v.x < v.y then (if v.x < v.z then 0 else 2)
  else (if v.y < v.z then 1 else 2)

/-- Vec3fa::maxc: return c[maxi()]. -/
def Vec3.maxc (v : Vec3) : ℚ := v.comp v.maxi

/-- A colour vector whose channels may be NaN (models Vec3fa values that
the code can poison with quiet_NaN). -/
structure Vec3N where
  x : QN
  y : QN
  z : QN
deriving DecidableEq

/-- Componentwise NaN-aware sum. -/
def Vec3N.add (a b : Vec3N) : Vec3N := ⟨qnAdd a.x b.x, qnAdd a.y b.y, qnAdd a.z b.z⟩

/-- Scaling by a possibly-NaN scalar (Vec3fa::operator*= with a float). -/
def Vec3N.scale (v : Vec3N) (t : QN) : Vec3N := ⟨qnMul v.x t, qnMul v.y t, qnMul v.z t⟩

/-- Inclusion of finite vectors into possibly-NaN vectors. -/
def Vec3.toN (v : Vec3) : Vec3N := ⟨Option.some v.x, Option.some v.y, Option.some v.z⟩

/-- The all-NaN colour vector. -/
def nanVec3 : Vec3N := ⟨Option.none, Option.none, Option.none⟩

/-- A float extended with the two IEEE infinities (no NaN: the code paths
modelled with FVal never produce NaN). -/
inductive FVal where
  | neginf : FVal
  | fin : ℚ → FVal
  | posinf : FVal
deriving DecidableEq

/-- The strict order used by std::min / std::max on floats, restricted to
non-NaN values: -inf is below every finite value, +inf above. -/
def fltb : FVal → FVal → Bool
  | FVal.neginf, FVal.fin _ => true
  | FVal.neginf, FVal.posinf => true
  | FVal.fin a, FVal.fin b => decide (a < b)
  | FVal.fin _, FVal.posinf => true
  | _, _ => false

/-- std::min(a, b), which returns b if b < a and a otherwise. -/
def fmin (a b : FVal) : FVal := if fltb b a then b else a

/-- std::max(a, b), which returns b if a < b and a otherwise. -/
def fmax (a b : FVal) : FVal := if fltb a b then b else a

/-- A 3-vector of possibly-infinite components (for bounding boxes). -/
structure Vec3F where
  x : FVal
  y : FVal
  z : FVal
deriving DecidableEq

/-- Bounds3d from geometry.hpp: an axis-aligned box given by min/max corners. -/
structure Bounds3d where
  min : Vec3F
  max : Vec3F
deriving DecidableEq

/-- The default-constructed Bounds3d: min = +infinity, max = -infinity in
every component (geometry.hpp lines 170-171). -/
def Bounds3d.emptyBox : Bounds3d :=
  ⟨⟨FVal.posinf, FVal.posinf, FVal.posinf⟩, ⟨FVal.neginf, FVal.neginf, FVal.neginf⟩⟩

/-- Bounds3d::operator+=(const Bounds3d&): componentwise min of minima and
max of maxima (geometry.hpp lines 178-185), modelled functionally. -/
def Bounds3d.extendBox (b o : Bounds3d) : Bounds3d :=
  ⟨⟨fmin b.min.x o.min.x, fmin b.min.y o.min.y, fmin b.min.z o.min.z⟩,
   ⟨fmax b.max.x o.max.x, fmax b.max.y o.max.y, fmax b.max.z o.max.z⟩⟩

/-- Bounds3d::operator+=(const Vec3fa&): extend the box by a single point
(geometry.hpp lines 187-194), modelled functionally. -/
def Bounds3d.extendPoint (b : Bounds3d) (v : Vec3F) : Bounds3d :=
  ⟨⟨fmin b.min.x v.x, fmin b.min.y v.y, fmin b.min.z v.z⟩,
   ⟨fmax b.max.x v.x, fmax b.max.y v.y, fmax b.max.z v.z⟩⟩

/-- Ray from geometry.hpp lines 212-225, with the field order of the source. -/
structure Ray where
  origin : Vec3
  tMin : FVal
  direction : Vec3
  tMax : FVal
deriving DecidableEq

/-- The Ray(origin, direction) constructor, geometry.hpp lines 214-219:
it stores the direction argument unchanged (tMin = 0, tMax = +infinity). -/
def Ray.make (o d : Vec3) : Ray := ⟨o, FVal.fin 0, d, FVal.posinf⟩

/-- HitRecord from geometry.hpp lines 227-252. -/
structure HitRecord where
  r : Ray
  primID : ℕ
  normal : Vec3
  throughput : Vec3
  geomID : ℕ
  flags : ℕ
deriving DecidableEq

/-- HitRecord::ERROR flag bit. -/
def HitRecord.ERROR : ℕ := 1

/-- HitRecord::ESCAPED flag bit. -/
def HitRecord.ESCAPED : ℕ := 2

/-- TraceResult from geometry.hpp lines 254-260 (the PixelCoord is inlined
as the two fields pu, pv). -/
structure TraceResult where
  rgb : Vec3N
  pu : ℚ
  pv : ℚ
  h : HitRecord
deriving DecidableEq

/-- Modelled from the spec: Material.hpp is not among the embedded files.
Per the spec data model a Material is a tag from the closed set
{Diffuse, Specular, Refractive} plus an emissive flag, an albedo colour, an
index of refraction and an emission colour; the tag is stored as a machine
integer so values outside the closed set are representable (which is why
the path tracer keeps a defensive fallback branch). -/
structure Material where
  mtype : ℕ
  emissive : Bool
  albedo : Vec3
  ior : ℚ
  emission : Vec3
deriving DecidableEq

/-- Material::Type::Diffuse. -/
def Material.Diffuse : ℕ := 0

/-- Material::Type::Specular. -/
def Material.Specular : ℕ := 1

/-- Material::Type::Refractive. -/
def Material.Refractive : ℕ := 2

/-- Modelled from the spec: the result of a successful bvh.intersect plus
updateHit (both defined outside the embedded files).  Per spec 4.1 and
4.4, a hit updates the HitRecord's normal, geomID and primID from the
intersected primitive, and the ray's tMax is tightened to the found
parametric t during traversal. -/
structure HitUpdate where
  normal : Vec3
  geomID : ℕ
  primID : ℕ
  t : FVal
deriving DecidableEq

/-- The external routines the PathTrace bounce loop calls whose bodies are
defined outside the embedded files.  They are kept fully abstract; the
hardware RNG is a stream rng indexed by the number of uniform samples
drawn so far. -/
structure TraceEnv where
  intersect : Ray → Option HitUpdate
  offsetRay : Ray → Vec3 → Ray
  sampleDiffuse : Vec3 → ℚ → ℚ → Vec3
  reflect : Vec3 → Vec3 → Vec3
  dielectric : Ray → Vec3 → ℚ → ℚ → Vec3 × Bool
  evaluateRoulette : ℚ → Vec3 → Bool
  rng : ℕ → ℚ

/-- The slice of SceneRef (Scene.hpp) that the bounce loop reads.  The
material arrays are modelled as total functions since index validity is
trusted, not checked, at trace time. -/
structure SceneCfg where
  matIDs : ℕ → ℕ
  materials : ℕ → Material
  maxPathLength : ℕ
  rouletteStartDepth : ℕ

/-- Per-ray mutable state of one iteration of the PathTrace sampling loop:
the HitRecord, the running colour accumulator of the current sample, the
TraceResult's accumulated rgb (which the unknown-material branch mutates
directly), and the count of uniform samples drawn so far. -/
structure StepState where
  hit : HitRecord
  color : Vec3
  rgb : Vec3N
  k : ℕ

/-- How one bounce iteration ends: the ray escaped (no BVH hit), the
roulette test stopped the path, or the loop continues to the next bounce. -/
inductive StepOutcome where
  | escaped : StepOutcome
  | stopped : StepOutcome
  | next : StepOutcome
deriving DecidableEq

/-- Lines 207-210 of TraceCodelets.cpp: offset the ray origin along the
surface normal and reset the parametric interval to [0, infinity). -/
def resetInterval (r : Ray) : Ray := { r with tMin := FVal.fin 0, tMax := FVal.posinf }

/-- The state just before the BVH query of a bounce: the HitRecord's ray
has been offset and its interval reset. -/
def preHitState (env : TraceEnv) (s : StepState) : StepState :=
  { s with hit := { s.hit with r := resetInterval (env.offsetRay s.hit.r s.hit.normal) } }

/-- Lines 214-244 of TraceCodelets.cpp, the body run when the BVH query
found a hit: update the HitRecord from the intersected primitive, look up
the material, add emission weighted by throughput, then branch on the
material tag (Diffuse draws two uniform samples, Refractive one, Specular
none; an unrecognized tag multiplies the accumulated rgb by NaN and sets
the ERROR flag). -/
def hitPhase (env : TraceEnv) (sc : SceneCfg) (s : StepState) (up : HitUpdate) : StepState :=
  let hit1 : HitRecord :=
    { s.hit with
      r := { s.hit.r with tMax := up.t }
      normal := up.normal
      geomID := up.geomID
      primID := up.primID }
  let m := sc.materials (sc.matIDs hit1.geomID)
  let color1 := if m.emissive then Vec3.add s.color (Vec3.mul hit1.throughput m.emission)
                else s.color
  if m.mtype = Material.Diffuse then
    let u1 := env.rng s.k
    let u2 := env.rng (s.k + 1)
    { hit := { hit1 with
               r := { hit1.r with direction := env.sampleDiffuse hit1.normal u1 u2 }
               throughput := Vec3.mul hit1.throughput m.albedo }
      color := color1
      rgb := s.rgb
      k := s.k + 2 }
  else if m.mtype = Material.Specular then
    { hit := { hit1 with
               r := { hit1.r with direction := env.reflect hit1.r.direction hit1.normal }
               throughput := Vec3.mul hit1.throughput m.albedo }
      color := color1
      rgb := s.rgb
      k := s.k }
  else if m.mtype = Material.Refractive then
    let u1 := env.rng s.k
    let dr := env.dielectric hit1.r hit1.normal m.ior u1
    { hit := { hit1 with
               r := { hit1.r with direction := dr.1 }
               throughput := if dr.2 then Vec3.mul hit1.throughput m.albedo else hit1.throughput }
      color := color1
      rgb := s.rgb
      k := s.k + 1 }
  else
    { hit := { hit1 with flags := hit1.flags ||| HitRecord.ERROR }
      color := color1
      rgb := Vec3N.scale s.rgb Option.none
      k := s.k }

/-- Lines 250-254 of TraceCodelets.cpp: if the bounce index is strictly
greater than rouletteStartDepth, draw one uniform sample and stop the path
when evaluateRoulette fires; the state is otherwise untouched. -/
def roulettePhase (env : TraceEnv) (sc : SceneCfg) (i : ℕ) (s : StepState) :
    StepState × StepOutcome :=
  if sc.rouletteStartDepth < i then
    let u1 := env.rng s.k
    let s' : StepState := { s with k := s.k + 1 }
    if env.evaluateRoulette u1 s.hit.throughput then (s', StepOutcome.stopped)
    else (s', StepOutcome.next)
  else (s, StepOutcome.next)

/-- One full iteration of the bounce loop (TraceCodelets.cpp lines
206-255) at bounce index i: offset and reset the ray, query the BVH; on a
miss set the ESCAPED flag and stop; on a hit run the material body and
then the roulette test. -/
def bounceStep (env : TraceEnv) (sc : SceneCfg) (i : ℕ) (s : StepState) :
    StepState × StepOutcome :=
  let s1 := preHitState env s
  match env.intersect s1.hit.r with
  | Option.none =>
      ({ s1 with hit := { s1.hit with flags := s1.hit.flags ||| HitRecord.ESCAPED } },
       StepOutcome.escaped)
  | Option.some up => roulettePhase env sc i (hitPhase env sc s1 up)

/-- The bounce loop from bounce index i with the given number of remaining
iterations: run bounceStep and recurse only while the outcome is next. -/
def traceLoopAux (env : TraceEnv) (sc : SceneCfg) : ℕ → ℕ → StepState → StepState
  | _, 0, s => s
  | i, Nat.succ fuel, s =>
    match bounceStep env sc i s with
    | (s', StepOutcome.next) => traceLoopAux env sc (i + 1) fuel s'
    | (s', _) => s'

/-- Lines 201-257 of TraceCodelets.cpp for one ray and one sample:
initialize throughput to (1,1,1) and the running colour to (0,0,0), run
the bounce loop for at most maxPathLength bounces, then add the running
colour into the TraceResult's accumulated rgb. -/
def traceRay (env : TraceEnv) (sc : SceneCfg) (res : TraceResult) : TraceResult :=
  let s0 : StepState :=
    { hit := { res.h with throughput := ⟨1, 1, 1⟩ }
      color := ⟨0, 0, 0⟩
      rgb := res.rgb
      k := 0 }
  let sF := traceLoopAux env sc 0 sc.maxPathLength s0
  { res with h := sF.hit, rgb := Vec3N.add sF.rgb sF.color.toN }

/-- The strided round-robin index set of one worker: the indices visited
by a loop for (r = start; r < size; r += stride), as used by every kernel
loop in TraceCodelets.cpp (lines 155, 200, 304, 333, 371).  The stride
must be positive for the loop to terminate. -/
def stridedIndices (stride size start : ℕ) : List ℕ :=
  if h : start < size ∧ 0 < stride then start :: stridedIndices stride size (start + stride)
  else []
termination_by size - start
decreasing_by omega

/-- The exact value of the float constant TwoPi from geometry.hpp
(the IEEE binary32 nearest to 2*pi, bit pattern 0x40C90FDB). -/
def TwoPi : ℚ := 13176795 / 2097152

/-- The exact value of the float constant InvPi from geometry.hpp
(the IEEE binary32 nearest to 1/pi, bit pattern 0x3EA2F983). -/
def InvPi : ℚ := 10680707 / 33554432

/-- The exact value of the float constant Inv2Pi from geometry.hpp
(the IEEE binary32 nearest to 1/(2*pi), bit pattern 0x3E22F983). -/
def Inv2Pi : ℚ := 10680707 / 67108864

/-- The longitude wrap from PreProcessEscapedRays::compute, TraceCodelets.cpp
lines 342-346: add a full turn when phi is negative, subtract one when phi
is strictly greater than TwoPi, otherwise leave phi unchanged. -/
def wrapPhi (phi : ℚ) : ℚ :=
  if phi < 0 then phi + TwoPi else if TwoPi < phi then phi - TwoPi else phi

/-- The per-ray body of PreProcessEscapedRays::compute (TraceCodelets.cpp
lines 336-353), parameterized by the float routines acosf and atan2 whose
bodies live outside the embedded files: for an ESCAPED ray emit
(theta * InvPi, wrappedPhi * Inv2Pi); otherwise emit (0, 0). -/
def preProcessRay (acosf : ℚ → ℚ) (atan2f : ℚ → ℚ → ℚ) (azimuthRotation : ℚ)
    (res : TraceResult) : ℚ × ℚ :=
  if res.h.flags &&& HitRecord.ESCAPED ≠ 0 then
    let dir := res.h.r.direction
    let theta := acosf dir.y
    let phi := wrapPhi (atan2f dir.z dir.x + azimuthRotation)
    (theta * InvPi, phi * Inv2Pi)
  else (0, 0)

/-- The per-ray body of PostProcessEscapedRays::compute (TraceCodelets.cpp
lines 371-378): given the externally sampled channels in b, g, r order, an
ESCAPED ray accumulates throughput * Vec3fa(v[2], v[1], v[0]) into rgb; a
non-escaped ray is left unchanged. -/
def postProcessRay (res : TraceResult) (b g r : ℚ) : TraceResult :=
  if res.h.flags &&& HitRecord.ESCAPED ≠ 0 then
    { res with rgb := Vec3N.add res.rgb (Vec3.mul res.h.throughput ⟨r, g, b⟩).toN }
  else res

/-- A concrete hit update used to instantiate theorems about the bounce loop. -/
def cUpd : HitUpdate := ⟨⟨0, 0, 1⟩, 0, 0, FVal.fin 1⟩

/-- A concrete specular material (tag Specular, non-emissive, white albedo). -/
def cMatSpec : Material := ⟨Material.Specular, false, ⟨1, 1, 1⟩, 1, ⟨0, 0, 0⟩⟩

/-- A concrete material whose tag lies outside the closed material set. -/
def cMatBad : Material := ⟨7, false, ⟨1, 1, 1⟩, 1, ⟨0, 0, 0⟩⟩

/-- A concrete trace environment: every BVH query hits (returning cUpd),
ray offsetting is the identity, the BxDF samplers are trivial, the
roulette test always asks to stop, and the RNG stream is constantly 0. -/
def cEnv : TraceEnv :=
  { intersect := fun _ => Option.some cUpd
    offsetRay := fun r _ => r
    sampleDiffuse := fun n _ _ => n
    reflect := fun d _ => d
    dielectric := fun r _ _ _ => (r.direction, true)
    evaluateRoulette := fun _ _ => true
    rng := fun _ => 0 }

/-- The same environment with a BVH query that never hits. -/
def cEnvMiss : TraceEnv := { cEnv with intersect := fun _ => Option.none }

/-- A concrete scene: every primitive maps to the specular material,
maxPathLength 2 and rouletteStartDepth 0. -/
def cSc : SceneCfg :=
  { matIDs := fun _ => 0
    materials := fun _ => cMatSpec
    maxPathLength := 2
    rouletteStartDepth := 0 }

/-- The same scene with every primitive mapped to the out-of-range material. -/
def cScBad : SceneCfg := { cSc with materials := fun _ => cMatBad }

/-- A concrete per-ray loop state with unit throughput and clean flags. -/
def cState : StepState :=
  { hit := ⟨Ray.make ⟨0, 0, 0⟩ ⟨0, 0, 1⟩, 0, ⟨0, 0, 1⟩, ⟨1, 1, 1⟩, 0, 0⟩
    color := ⟨0, 0, 0⟩
    rgb := ⟨Option.some 0, Option.some 0, Option.some 0⟩
    k := 0 }

/-- A concrete TraceResult whose hit record has only the ESCAPED flag set. -/
def cEscRes : TraceResult :=
  ⟨⟨Option.some 0, Option.some 0, Option.some 0⟩, 0, 0,
   ⟨Ray.make ⟨0, 0, 0⟩ ⟨0, 1, 0⟩, 0, ⟨0, 0, 1⟩, ⟨1, 2, 3⟩, 0, 2⟩⟩

/-- A concrete TraceResult whose hit record carries the ERROR flag but not
ESCAPED (flags = 1). -/
def cHitRes : TraceResult :=
  ⟨⟨Option.some 5, Option.some 6, Option.some 7⟩, 0, 0,
   ⟨Ray.make ⟨0, 0, 0⟩ ⟨1, 0, 0⟩, 0, ⟨0, 0, 1⟩, ⟨1, 2, 3⟩, 0, 1⟩⟩

/-- std::min with +infinity on the left returns the other argument. -/
theorem fmin_posinf_left (a : FVal) : fmin FVal.posinf a = a := by
  cases a <;> rfl

/-- std::max with -infinity on the left returns the other argument. -/
theorem fmax_neginf_left (a : FVal) : fmax FVal.neginf a = a := by
  cases a <;> rfl

/-- Claim C9: a default-constructed Bounds3d is the empty box (min =
+infinity and max = -infinity in every component) and is the identity for
incremental extension: extending it by any box b yields b, extending it by
any single point p yields the degenerate box with min = max = p, and box
extension computes the componentwise min of minima and max of maxima. -/
theorem bounds3d_empty_is_extension_identity :
    (Bounds3d.emptyBox.min = ⟨FVal.posinf, FVal.posinf, FVal.posinf⟩ ∧
     Bounds3d.emptyBox.max = ⟨FVal.neginf, FVal.neginf, FVal.neginf⟩) ∧
    (∀ b : Bounds3d, Bounds3d.extendBox Bounds3d.emptyBox b = b) ∧
    (∀ p : Vec3F, Bounds3d.extendPoint Bounds3d.emptyBox p = ⟨p, p⟩) ∧
    (∀ a b : Bounds3d, Bounds3d.extendBox a b =
      ⟨⟨fmin a.min.x b.min.x, fmin a.min.y b.min.y, fmin a.min.z b.min.z⟩,
       ⟨fmax a.max.x b.max.x, fmax a.max.y b.max.y, fmax a.max.z b.max.z⟩⟩) := by
  refine ⟨⟨rfl, rfl⟩, ?_, ?_, fun a b => rfl⟩
  · intro b
    rcases b with ⟨⟨ax, ay, az⟩, ⟨bx, bY, bz⟩⟩
    simp [Bounds3d.extendBox, Bounds3d.emptyBox, fmin_posinf_left, fmax_neginf_left]
  · intro p
    rcases p with ⟨px, py, pz⟩
    simp [Bounds3d.extendPoint, Bounds3d.emptyBox, fmin_posinf_left, fmax_neginf_left]

/-- Claim C10 (code bug): Vec3fa::maxi does not return the index of a
maximum component, and maxc does not return the maximum: at v = (0, 1, 2)
maxi returns 0 and maxc returns 0 although the maximum component is 2.
In fact maxc always returns the MINIMUM of the three components (the
branches of maxi implement argmin), contradicting the code's own comment
"Return index of maximum component". -/
theorem maxi_is_argmin_not_argmax :
    Vec3.maxi ⟨0, 1, 2⟩ = 0 ∧ Vec3.maxc ⟨0, 1, 2⟩ = 0 ∧
    Vec3.comp ⟨0, 1, 2⟩ 2 = 2 ∧ Vec3.maxc ⟨0, 1, 2⟩ < 2 ∧
    ∀ v : Vec3, Vec3.maxc v = min (min v.x v.y) v.z := by
  refine ⟨by decide, by decide, by decide, by decide, ?_⟩
  intro v
  unfold Vec3.maxc Vec3.maxi
  by_cases h1 : v.x < v.y
  · by_cases h2 : v.x < v.z
    · simp only [h1, h2, if_true, Vec3.comp]
      rw [min_eq_left h1.le, min_eq_left h2.le]
    · simp only [h1, h2, if_true, if_false, Vec3.comp]
      rw [min_eq_left h1.le, min_eq_right (le_of_not_lt h2)]
  · by_cases h3 : v.y < v.z
    · simp only [h1, h3, if_true, if_false, Vec3.comp]
      rw [min_eq_right (le_of_not_lt h1), min_eq_left h3.le]
    · simp only [h1, h3, if_false, Vec3.comp]
      rw [min_eq_right (le_of_not_lt h1), min_eq_right (le_of_not_lt h3)]

/-- Claim C3 (code bug): the Ray(origin, direction) constructor stores the
direction argument unchanged, so the constructed direction is NOT unit
length in general: from direction (2, 0, 0) it holds (2, 0, 0), whose
squared norm is 4.  The code's own comment (TraceCodelets.cpp line 339,
"normalised in Ray constructor") and the spec both claim normalization. -/
theorem ray_constructor_does_not_normalize :
    (∀ o d : Vec3, (Ray.make o d).direction = d) ∧
    (Ray.make ⟨0, 0, 0⟩ ⟨2, 0, 0⟩).direction = ⟨2, 0, 0⟩ ∧
    Vec3.squaredNorm (Ray.make ⟨0, 0, 0⟩ ⟨2, 0, 0⟩).direction = 4 := by
  refine ⟨fun o d => rfl, rfl, by norm_num [Ray.make, Vec3.squaredNorm]⟩

/-- Membership in a worker's strided index list: an index n is visited by
the loop starting at start with a positive stride iff n is in range and n
is start plus a whole number of strides. -/
theorem mem_stridedIndices (stride size : ℕ) (hW : 0 < stride) :
    ∀ fuel start n, size ≤ start + fuel →
      (n ∈ stridedIndices stride size start ↔ (n < size ∧ ∃ j, n = start + j * stride)) := by
  intro fuel
  induction fuel with
  | zero =>
    intro start n hk
    rw [stridedIndices, dif_neg (by omega : ¬(start < size ∧ 0 < stride))]
    simp only [List.not_mem_nil, false_iff, not_and]
    intro hn
    rintro ⟨j, rfl⟩
    omega
  | succ fuel ih =>
    intro start n hk
    rw [stridedIndices]
    by_cases hs : start < size
    · rw [dif_pos ⟨hs, hW⟩]
      simp only [List.mem_cons]
      rw [ih (start + stride) n (by omega)]
      constructor
      · rintro (rfl | ⟨hn, j, rfl⟩)
        · exact ⟨hs, 0, by omega⟩
        · exact ⟨hn, j + 1, by rw [Nat.add_mul]; omega⟩
      · rintro ⟨hn, j, rfl⟩
        cases j with
        | zero => left; omega
        | succ j =>
          right
          exact ⟨hn, j, by rw [Nat.succ_mul]; omega⟩
    · rw [dif_neg (by omega)]
      simp only [List.not_mem_nil, false_iff, not_and]
      intro hn
      rintro ⟨j, rfl⟩
      omega

/-- Claim C8: with W workers and a ray array of size N, worker i's loop
(for r = i; r < N; r += W) visits exactly the indices below N that are
congruent to i mod W; consequently every index below N is visited by
exactly one worker, so the per-worker index sets are pairwise disjoint and
jointly cover the array.  All five kernels in TraceCodelets.cpp use this
iteration pattern. -/
theorem worker_stride_partition (W N : ℕ) (hW : 0 < W) :
    (∀ i n, i < W → (n ∈ stridedIndices W N i ↔ (n < N ∧ n % W = i))) ∧
    (∀ n, n < N → n ∈ stridedIndices W N (n % W) ∧
      ∀ i, i < W → n ∈ stridedIndices W N i → i = n % W) := by
  have key : ∀ i n, i < W → (n ∈ stridedIndices W N i ↔ (n < N ∧ n % W = i)) := by
    intro i n hi
    rw [mem_stridedIndices W N hW (N + 1) i n (by omega)]
    constructor
    · rintro ⟨hn, j, rfl⟩
      refine ⟨hn, ?_⟩
      rw [Nat.add_mul_mod_self_right]
      exact Nat.mod_eq_of_lt hi
    · rintro ⟨hn, hmod⟩
      refine ⟨hn, n / W, ?_⟩
      rw [← hmod]
      exact (Nat.mod_add_div' n W).symm
  refine ⟨key, ?_⟩
  intro n hn
  have hmod : n % W < W := Nat.mod_lt n hW
  constructor
  · exact (key (n % W) n hmod).mpr ⟨hn, rfl⟩
  · intro i hi hmem
    exact ((key i n hi).mp hmem).2.symm

/-- Witness for worker_stride_partition at W = 6, N = 13: worker 3's list
contains exactly 3 and 9, and index 9 is visited only by worker 3. -/
theorem worker_stride_partition_witness :
    (0 < 6 ∧ (9 ∈ stridedIndices 6 13 3 ↔ (9 < 13 ∧ 9 % 6 = 3))) ∧
    (9 ∈ stridedIndices 6 13 (9 % 6)) :=
  ⟨⟨by decide, (worker_stride_partition 6 13 (by decide)).1 3 9 (by decide)⟩,
   ((worker_stride_partition 6 13 (by decide)).2 9 (by decide)).1⟩

/-- Multiplying a colour by the NaN scalar poisons every channel. -/
theorem scale_nan_poisons (v : Vec3N) : Vec3N.scale v Option.none = nanVec3 := by
  rcases v with ⟨a, b, c⟩
  cases a <;> cases b <;> cases c <;> rfl

/-- The roulette test never modifies the HitRecord. -/
theorem roulettePhase_hit (env : TraceEnv) (sc : SceneCfg) (i : ℕ) (s : StepState) :
    (roulettePhase env sc i s).1.hit = s.hit := by
  simp only [roulettePhase]
  split_ifs <;> rfl

/-- The roulette test never modifies the running colour. -/
theorem roulettePhase_color (env : TraceEnv) (sc : SceneCfg) (i : ℕ) (s : StepState) :
    (roulettePhase env sc i s).1.color = s.color := by
  simp only [roulettePhase]
  split_ifs <;> rfl

/-- The roulette test never modifies the accumulated rgb. -/
theorem roulettePhase_rgb (env : TraceEnv) (sc : SceneCfg) (i : ℕ) (s : StepState) :
    (roulettePhase env sc i s).1.rgb = s.rgb := by
  simp only [roulettePhase]
  split_ifs <;> rfl

/-- The roulette test never reports an escape. -/
theorem roulettePhase_not_escaped (env : TraceEnv) (sc : SceneCfg) (i : ℕ) (s : StepState) :
    (roulettePhase env sc i s).2 ≠ StepOutcome.escaped := by
  simp only [roulettePhase]
  split_ifs <;> simp

/-- Claim C5: whenever the BVH closest-hit query returns no hit, the
bounce step sets the ESCAPED flag and reports escape, leaving throughput,
sample counter, running colour and accumulated rgb untouched (so no
material lookup, no throughput update and no roulette draw happened), and
the bounce loop returns immediately after that iteration no matter how
many bounces remain. -/
theorem escaped_ray_stops_loop (env : TraceEnv) (sc : SceneCfg) (i : ℕ) (s : StepState)
    (h : env.intersect (resetInterval (env.offsetRay s.hit.r s.hit.normal)) = Option.none) :
    (bounceStep env sc i s).2 = StepOutcome.escaped ∧
    (bounceStep env sc i s).1.hit.flags = s.hit.flags ||| HitRecord.ESCAPED ∧
    (bounceStep env sc i s).1.hit.throughput = s.hit.throughput ∧
    (bounceStep env sc i s).1.k = s.k ∧
    (bounceStep env sc i s).1.color = s.color ∧
    (bounceStep env sc i s).1.rgb = s.rgb ∧
    ∀ fuel, traceLoopAux env sc i (fuel + 1) s = (bounceStep env sc i s).1 := by
  have hb : bounceStep env sc i s =
      ({ s with hit := { s.hit with
           r := resetInterval (env.offsetRay s.hit.r s.hit.normal)
           flags := s.hit.flags ||| HitRecord.ESCAPED } },
       StepOutcome.escaped) := by
    simp [bounceStep, preHitState, h]
  refine ⟨by rw [hb], by rw [hb], by rw [hb], by rw [hb], by rw [hb], by rw [hb], ?_⟩
  intro fuel
  simp [traceLoopAux, hb]

/-- Witness for escaped_ray_stops_loop: with an environment whose BVH
query never hits, bounce 0 of the concrete state reports escape. -/
theorem escaped_ray_stops_loop_witness :
    cEnvMiss.intersect (resetInterval (cEnvMiss.offsetRay cState.hit.r cState.hit.normal)) =
      Option.none ∧
    (bounceStep cEnvMiss cSc 0 cState).2 = StepOutcome.escaped :=
  ⟨rfl, (escaped_ray_stops_loop cEnvMiss cSc 0 cState rfl).1⟩

/-- Claim C6: when the intersected primitive's material has a tag that is
none of Diffuse, Specular or Refractive, the bounce step sets the ERROR
flag on the hit record and poisons the result's accumulated colour with
NaN in every channel, and it does not abort: the step completes in-band
(its outcome is never an escape; the loop either continues or is stopped
by the ordinary roulette test). -/
theorem unknown_material_marks_error (env : TraceEnv) (sc : SceneCfg) (i : ℕ) (s : StepState)
    (up : HitUpdate)
    (h : env.intersect (resetInterval (env.offsetRay s.hit.r s.hit.normal)) = Option.some up)
    (h0 : (sc.materials (sc.matIDs up.geomID)).mtype ≠ Material.Diffuse)
    (h1 : (sc.materials (sc.matIDs up.geomID)).mtype ≠ Material.Specular)
    (h2 : (sc.materials (sc.matIDs up.geomID)).mtype ≠ Material.Refractive) :
    (bounceStep env sc i s).1.hit.flags = s.hit.flags ||| HitRecord.ERROR ∧
    (bounceStep env sc i s).1.rgb = nanVec3 ∧
    (bounceStep env sc i s).2 ≠ StepOutcome.escaped := by
  have hb : bounceStep env sc i s =
      roulettePhase env sc i (hitPhase env sc (preHitState env s) up) := by
    simp [bounceStep, preHitState, h]
  have hp : hitPhase env sc (preHitState env s) up =
      { hit := { s.hit with
           r := { resetInterval (env.offsetRay s.hit.r s.hit.normal) with tMax := up.t }
           normal := up.normal
           geomID := up.geomID
           primID := up.primID
           flags := s.hit.flags ||| HitRecord.ERROR }
        color := if (sc.materials (sc.matIDs up.geomID)).emissive then
                   Vec3.add s.color (Vec3.mul s.hit.throughput
                     (sc.materials (sc.matIDs up.geomID)).emission)
                 else s.color
        rgb := Vec3N.scale s.rgb Option.none
        k := s.k } := by
    simp [hitPhase, preHitState, h0, h1, h2]
  refine ⟨?_, ?_, ?_⟩
  · rw [hb, roulettePhase_hit, hp]
  · rw [hb, roulettePhase_rgb, hp, scale_nan_poisons]
  · rw [hb]
    exact roulettePhase_not_escaped env sc i _

/-- Witness for unknown_material_marks_error: with every primitive mapped
to the tag-7 material, bounce 0 of the concrete state NaN-poisons the
accumulated colour. -/
theorem unknown_material_marks_error_witness :
    cEnv.intersect (resetInterval (cEnv.offsetRay cState.hit.r cState.hit.normal)) =
      Option.some cUpd ∧
    (bounceStep cEnv cScBad 0 cState).1.rgb = nanVec3 ∧
    (bounceStep cEnv cScBad 0 cState).1.hit.flags = cState.hit.flags ||| HitRecord.ERROR :=
  ⟨rfl,
   (unknown_material_marks_error cEnv cScBad 0 cState cUpd rfl
      (by decide) (by decide) (by decide)).2.1,
   (unknown_material_marks_error cEnv cScBad 0 cState cUpd rfl
      (by decide) (by decide) (by decide)).1⟩

/-- Claim C1 counterexample: at bounce index 0 with rouletteStartDepth = 0
(so index >= rouletteStartDepth) the ray hits a surface, yet the bounce
step draws NO uniform sample (the specular material draws none and the
sample counter stays 0) and continues even though the environment's
roulette test always asks to terminate: the code only applies roulette
when the bounce index is STRICTLY greater than rouletteStartDepth. -/
theorem roulette_skipped_at_start_depth :
    (cEnv.intersect (resetInterval (cEnv.offsetRay cState.hit.r cState.hit.normal))).isSome =
      true ∧
    cSc.rouletteStartDepth = 0 ∧
    (∀ u t, cEnv.evaluateRoulette u t = true) ∧
    (bounceStep cEnv cSc 0 cState).1.k = 0 ∧
    (bounceStep cEnv cSc 0 cState).2 = StepOutcome.next := by
  refine ⟨rfl, rfl, fun u t => rfl, ?_, ?_⟩ <;> decide

/-- Claim C1 (amended): for every bounce with index STRICTLY GREATER than
rouletteStartDepth on which the ray hit a surface, exactly one additional
uniform sample is drawn (the step's sample counter is the material phase's
counter plus one) and the roulette test evaluateRoulette is applied to
that sample and the current (post-material) throughput; the path stops iff
the test fires, and in either case the hit record — including the
surviving throughput — and the colour accumulators are exactly as the
material phase left them: no compensation is applied. -/
theorem roulette_strictly_after_start_depth (env : TraceEnv) (sc : SceneCfg) (i : ℕ)
    (s : StepState) (up : HitUpdate)
    (h : env.intersect (resetInterval (env.offsetRay s.hit.r s.hit.normal)) = Option.some up)
    (hi : sc.rouletteStartDepth < i) :
    (bounceStep env sc i s).1.hit = (hitPhase env sc (preHitState env s) up).hit ∧
    (bounceStep env sc i s).1.color = (hitPhase env sc (preHitState env s) up).color ∧
    (bounceStep env sc i s).1.rgb = (hitPhase env sc (preHitState env s) up).rgb ∧
    (bounceStep env sc i s).1.k = (hitPhase env sc (preHitState env s) up).k + 1 ∧
    ((bounceStep env sc i s).2 = StepOutcome.stopped ↔
      env.evaluateRoulette (env.rng (hitPhase env sc (preHitState env s) up).k)
        (hitPhase env sc (preHitState env s) up).hit.throughput = true) := by
  have hb : bounceStep env sc i s =
      roulettePhase env sc i (hitPhase env sc (preHitState env s) up) := by
    simp [bounceStep, preHitState, h]
  rw [hb]
  generalize hitPhase env sc (preHitState env s) up = t
  simp only [roulettePhase, if_pos hi]
  by_cases hr : env.evaluateRoulette (env.rng t.k) t.hit.throughput = true
  · simp [hr]
  · simp [hr]

/-- Witness for roulette_strictly_after_start_depth at bounce index 1 with
rouletteStartDepth 0: the step draws one sample beyond the material phase
and stops because the concrete roulette test fires. -/
theorem roulette_strictly_after_start_depth_witness :
    cEnv.intersect (resetInterval (cEnv.offsetRay cState.hit.r cState.hit.normal)) =
      Option.some cUpd ∧
    cSc.rouletteStartDepth < 1 ∧
    (bounceStep cEnv cSc 1 cState).1.k =
      (hitPhase cEnv cSc (preHitState cEnv cState) cUpd).k + 1 :=
  ⟨rfl, by decide,
   (roulette_strictly_after_start_depth cEnv cSc 1 cState cUpd rfl (by decide)).2.2.2.1⟩

/-- Claim C2 counterexample: a raw longitude of exactly TwoPi is NOT
wrapped into [0, 2*pi): the wrap's comparison is strict (phi > TwoPi), so
wrapPhi leaves the value 2*pi unchanged, and 2*pi is outside [0, 2*pi). -/
theorem wrap_keeps_exactly_twopi :
    0 < TwoPi ∧ wrapPhi TwoPi = TwoPi ∧ ¬ wrapPhi TwoPi < TwoPi := by
  have h1 : ¬ (TwoPi < (0 : ℚ)) := by norm_num [TwoPi]
  have h2 : ¬ (TwoPi < TwoPi) := lt_irrefl _
  refine ⟨by norm_num [TwoPi], ?_, ?_⟩
  · unfold wrapPhi
    rw [if_neg h1, if_neg h2]
  · unfold wrapPhi
    rw [if_neg h1, if_neg h2]
    exact lt_irrefl _

/-- Claim C2 (amended): for every escaped ray the pre-process phase emits
u = acosf(dir.y) * InvPi and v = wrappedPhi * Inv2Pi where the raw
longitude atan2(dir.z, dir.x) + azimuthRotation is wrapped by wrapPhi; the
wrap sends every raw phi in [-2*pi, 2*pi) and every raw phi in
(2*pi, 2*2*pi) — in particular the boundary inputs -eps, 0, 2*pi - eps and
2*pi + eps — into [0, 2*pi), but a raw phi of exactly 2*pi stays at 2*pi,
just outside the interval. -/
theorem preprocess_escaped_uv (acosf : ℚ → ℚ) (atan2f : ℚ → ℚ → ℚ) (az : ℚ)
    (res : TraceResult) (h : res.h.flags &&& HitRecord.ESCAPED ≠ 0) :
    preProcessRay acosf atan2f az res =
      (acosf res.h.r.direction.y * InvPi,
       wrapPhi (atan2f res.h.r.direction.z res.h.r.direction.x + az) * Inv2Pi) ∧
    (∀ phi : ℚ, (-TwoPi ≤ phi ∧ phi < TwoPi) ∨ (TwoPi < phi ∧ phi < 2 * TwoPi) →
      0 ≤ wrapPhi phi ∧ wrapPhi phi < TwoPi) := by
  constructor
  · simp [preProcessRay, h]
  · intro phi hphi
    unfold wrapPhi
    split_ifs with h1 h2
    · rcases hphi with ⟨hl, _⟩ | ⟨hl, _⟩
      · constructor <;> linarith
      · constructor <;> linarith
    · rcases hphi with ⟨_, hu⟩ | ⟨_, hu⟩
      · constructor <;> linarith
      · constructor <;> linarith
    · rcases hphi with ⟨_, hu⟩ | ⟨hl, _⟩
      · constructor <;> linarith
      · constructor <;> linarith

/-- Witness for preprocess_escaped_uv: the concrete escaped result, with
the identity acosf and a constant-zero atan2, is mapped to the coordinates
predicted by the theorem; its direction is (0, 1, 0) so u = 1 * InvPi. -/
theorem preprocess_escaped_uv_witness :
    cEscRes.h.flags &&& HitRecord.ESCAPED ≠ 0 ∧
    preProcessRay (fun q => q) (fun _ _ => 0) 0 cEscRes =
      ((fun (q : ℚ) => q) cEscRes.h.r.direction.y * InvPi,
       wrapPhi ((fun (_ _ : ℚ) => (0 : ℚ)) cEscRes.h.r.direction.z cEscRes.h.r.direction.x
         + 0) * Inv2Pi) :=
  ⟨by decide,
   (preprocess_escaped_uv (fun q => q) (fun _ _ => 0) 0 cEscRes (by decide)).1⟩

/-- Claim C7: a ray-result entry whose ESCAPED flag is not set is always
mapped to the coordinates (0, 0) by the pre-process phase, regardless of
the rest of its HitRecord and of the acosf/atan2 routines and azimuth. -/
theorem preprocess_nonescaped_zero (acosf : ℚ → ℚ) (atan2f : ℚ → ℚ → ℚ) (az : ℚ)
    (res : TraceResult) (h : res.h.flags &&& HitRecord.ESCAPED = 0) :
    preProcessRay acosf atan2f az res = (0, 0) := by
  simp [preProcessRay, h]

/-- Witness for preprocess_nonescaped_zero: the concrete result whose hit
record carries the ERROR flag (but not ESCAPED) is mapped to (0, 0). -/
theorem preprocess_nonescaped_zero_witness :
    cHitRes.h.flags &&& HitRecord.ESCAPED = 0 ∧
    preProcessRay (fun q => q) (fun _ _ => 0) 0 cHitRes = (0, 0) :=
  ⟨by decide, preprocess_nonescaped_zero (fun q => q) (fun _ _ => 0) 0 cHitRes (by decide)⟩

/-- Claim C4: in the post-process phase, an entry whose ESCAPED flag is
set accumulates the externally supplied (b, g, r) sample reordered to RGB
and weighted by its throughput — channelwise, x gains throughput.x * r,
y gains throughput.y * g, z gains throughput.z * b — while its hit record
and pixel coordinates are untouched; an entry whose ESCAPED flag is not
set is left completely unchanged. -/
theorem postprocess_escaped_accumulates (res : TraceResult) (b g r : ℚ) :
    (res.h.flags &&& HitRecord.ESCAPED ≠ 0 →
      (postProcessRay res b g r).rgb.x = qnAdd res.rgb.x (Option.some (res.h.throughput.x * r)) ∧
      (postProcessRay res b g r).rgb.y = qnAdd res.rgb.y (Option.some (res.h.throughput.y * g)) ∧
      (postProcessRay res b g r).rgb.z = qnAdd res.rgb.z (Option.some (res.h.throughput.z * b)) ∧
      (postProcessRay res b g r).h = res.h ∧
      (postProcessRay res b g r).pu = res.pu ∧
      (postProcessRay res b g r).pv = res.pv) ∧
    (res.h.flags &&& HitRecord.ESCAPED = 0 → postProcessRay res b g r = res) := by
  constructor
  · intro h
    simp [postProcessRay, h, Vec3N.add, Vec3.mul, Vec3.toN]
  · intro h
    simp [postProcessRay, h]

/-- Witness for postprocess_escaped_accumulates: both branches applied to
concrete results — the escaped one (throughput (1,2,3), sample b g r =
10 20 30) gains 1 * 30 in the red channel; the non-escaped one is
unchanged. -/
theorem postprocess_escaped_accumulates_witness :
    (cEscRes.h.flags &&& HitRecord.ESCAPED ≠ 0 ∧
      (postProcessRay cEscRes 10 20 30).rgb.x =
        qnAdd cEscRes.rgb.x (Option.some (cEscRes.h.throughput.x * 30))) ∧
    (cHitRes.h.flags &&& HitRecord.ESCAPED = 0 ∧
      postProcessRay cHitRes 10 20 30 = cHitRes) :=
  ⟨⟨by decide, ((postprocess_escaped_accumulates cEscRes 10 20 30).1 (by decide)).1⟩,
   ⟨by decide, (postprocess_escaped_accumulates cHitRes 10 20 30).2 (by decide)⟩⟩
